import Mathlib

/-!
Verification of the ToxEcology intervention matcher
(src/intervention_matcher.py) against its natural-language specification.

The Python source is shallowly embedded below:
* module-level constants become Lean definitions of the same name;
* Python `float` scores become `ℚ` (every numeric value the program
  manipulates — scores, thresholds, `relevance_score / 50` — is exactly
  representable, so rational arithmetic is a faithful model);
* Python strings become Lean `String`, and the string methods the source
  uses (`lower`, `replace`, `split`, `title`, `in`, `"%.1f"` formatting)
  are modelled by the `py*`-prefixed helpers over `List Char`;
* the Airtable dictionaries built in `_get_unprocessed_scores`
  (lines 147-188) become association lists with a defaulting lookup,
  mirroring Python's `dict.get(key, default)`;
* `list.sort(key=...)` (a stable ascending sort) is modelled by
  Mathlib's `List.insertionSort`, which is likewise stable.
-/

/-! ### Module-level constants (lines 35-37) -/

/-- Constant `HIGH_SCORE_THRESHOLD = 7.0` (line 35). -/
def HIGH_SCORE_THRESHOLD : ℚ := 7

/-- Constant `MODERATE_SCORE_THRESHOLD = 5.0` (line 36). -/
def MODERATE_SCORE_THRESHOLD : ℚ := 5

/-- Constant `MAX_INTERVENTIONS_PER_PATIENT = 10` (line 37). -/
def MAX_INTERVENTIONS_PER_PATIENT : Nat := 10

/-- Table `SOURCE_CATEGORY_KEYWORDS` (lines 40-88): a module-level dictionary of
source-category keys to trigger substrings.  Declared by the module but —
as claim C10 asserts — never consulted by the matching code. -/
def SOURCE_CATEGORY_KEYWORDS : List (String × List String) :=
  [("rice", ["rice", "brown rice", "rice servings"]),
   ("well_water", ["well water", "unfiltered water", "private well"]),
   ("produce_arsenic", ["leafy greens", "spinach", "kale"]),
   ("pressure_treated_wood", ["deck", "playground", "treated wood"]),
   ("high_mercury_fish", ["tuna", "swordfish", "king mackerel", "fish servings"]),
   ("dental_amalgam", ["amalgam", "silver fillings", "dental"]),
   ("pre_1978_home", ["home built", "old home", "lead paint"]),
   ("lead_pipes", ["lead pipes", "old pipes", "lead water"]),
   ("lead_cookware", ["ceramic", "pottery", "glazed"]),
   ("occupational_lead", ["construction", "battery", "welding"]),
   ("smoking", ["smoking", "cigarettes", "tobacco"]),
   ("shellfish", ["oysters", "mussels", "scallops", "shellfish"]),
   ("nonstick_cookware", ["nonstick", "teflon", "cookware"]),
   ("pfas_water", ["pfas water", "contaminated water"]),
   ("fast_food", ["fast food", "takeout", "food packaging"]),
   ("coffee", ["coffee"]),
   ("nuts", ["nuts", "peanuts", "peanut butter"]),
   ("grains", ["corn", "wheat", "grains"]),
   ("visible_mold", ["mold", "water damage", "musty"]),
   ("hvac", ["hvac", "ducts", "air conditioning"]),
   ("humidity", ["humidity", "basement", "damp"]),
   ("cleaning_products", ["cleaning", "cleaners", "disinfectants"]),
   ("new_furniture", ["new furniture", "new mattress", "off-gassing"]),
   ("air_fresheners", ["air freshener", "scented candles", "fragrance"]),
   ("produce_pesticides", ["produce", "dirty dozen", "non-organic"]),
   ("lawn_pesticides", ["lawn", "herbicide", "weed killer"]),
   ("personal_care", ["personal care", "fragrance", "perfume", "cologne"]),
   ("plastic_food", ["plastic", "food storage", "microwave"])]

/-! ### Models of the Python string methods used by the source -/

/-- Model of Python `str.lower()` (character-wise lowercasing). -/
def pyLower (s : String) : String :=
  String.mk (s.data.map Char.toLower)

/-- The character substitution performed by `str.replace('-', ' ')`. -/
def dashToSpace (c : Char) : Char :=
  if c = '-' then ' ' else c

/-- Model of Python `s.replace('-', ' ')`. -/
def replDash (s : String) : String :=
  String.mk (s.data.map dashToSpace)

/-- The character substitution performed by `str.replace('_', ' ')`. -/
def underscoreToSpace (c : Char) : Char :=
  if c = '_' then ' ' else c

/-- Model of Python `s.replace('_', ' ')`. -/
def replUnderscore (s : String) : String :=
  String.mk (s.data.map underscoreToSpace)

/-- Worker for `pyTitle`: the boolean records whether the previous
character was alphabetic (i.e. whether we are inside a word). -/
def titleMap : Bool → List Char → List Char
  | _, [] => []
  | prevAlpha, c :: cs =>
    (if c.isAlpha then (if prevAlpha then c.toLower else c.toUpper) else c)
      :: titleMap c.isAlpha cs

/-- Model of Python `str.title()`: uppercase the first character of every
alphabetic run, lowercase the rest. -/
def pyTitle (s : String) : String :=
  String.mk (titleMap false s.data)

/-- Worker for `pySplit`: `cur` accumulates the current word (reversed). -/
def pySplitAux : List Char → List Char → List String
  | cur, [] => if cur.isEmpty then [] else [String.mk cur.reverse]
  | cur, c :: cs =>
    if c.isWhitespace then
      if cur.isEmpty then pySplitAux [] cs
      else String.mk cur.reverse :: pySplitAux [] cs
    else pySplitAux (c :: cur) cs

/-- Model of Python `str.split()` (no argument): split on runs of
whitespace, discarding empty pieces. -/
def pySplit (s : String) : List String :=
  pySplitAux [] s.data

/-- Does `needle` occur at the start of `haystack`? -/
def startsWithChars : List Char → List Char → Bool
  | [], _ => true
  | _ :: _, [] => false
  | c :: cs, d :: ds => c == d && startsWithChars cs ds

/-- Does `needle` occur contiguously anywhere inside `haystack`? -/
def containsSubChars (needle : List Char) : List Char → Bool
  | [] => needle.isEmpty
  | c :: rest => startsWithChars needle (c :: rest) || containsSubChars needle rest

/-- Model of Python `needle in haystack` on strings (substring test). -/
def strContains (haystack needle : String) : Bool :=
  containsSubChars needle.data haystack.data

/-- Model of Python `f"{q:.1f}"`: round to the nearest tenth and print
with exactly one decimal digit.  (On the exact tenths the program
produces — e.g. `8.0` — this agrees with CPython literally.) -/
def fmt1 (q : ℚ) : String :=
  let n : Int := ⌊q * 10 + 1 / 2⌋
  let digits := toString (n.natAbs / 10) ++ "." ++ toString (n.natAbs % 10)
  if n < 0 then "-" ++ digits else digits

/-! ### Data model -/

/-- One interventions-catalog entry, with the fields and defaults read by
`_load_interventions` (lines 105-125). -/
structure Intervention where
  record_id : String
  intervention_id : String
  domain : String
  source_category : String
  intervention_name : String
  priority_rank : Int
  difficulty_level : String
  expected_reduction_percent : Int
  estimated_cost : String
  deriving DecidableEq

/-- The Airtable fields of one exposure-source-score record: for each of
the 11 toxin domains a score, a free-text primary source, and a
confidence level, plus the identifying fields (spec §3, §6). -/
structure ScoreRecordFields where
  patient_id : String
  report_id : String
  survey_id : String
  arsenic_source_score : ℚ
  mercury_source_score : ℚ
  lead_source_score : ℚ
  cadmium_source_score : ℚ
  pfas_source_score : ℚ
  phthalates_source_score : ℚ
  pesticides_source_score : ℚ
  vocs_source_score : ℚ
  parabens_source_score : ℚ
  mycotoxins_food_score : ℚ
  mycotoxins_water_damage_score : ℚ
  arsenic_primary_source : String
  mercury_primary_source : String
  lead_primary_source : String
  cadmium_primary_source : String
  pfas_primary_source : String
  phthalates_primary_source : String
  pesticides_primary_source : String
  vocs_primary_source : String
  parabens_primary_source : String
  mycotoxins_food_primary_source : String
  mycotoxins_water_damage_primary_source : String
  arsenic_confidence : String
  mercury_confidence : String
  lead_confidence : String
  cadmium_confidence : String
  pfas_confidence : String
  phthalates_confidence : String
  pesticides_confidence : String
  vocs_confidence : String
  parabens_confidence : String
  mycotoxins_food_confidence : String
  mycotoxins_water_damage_confidence : String
  deriving DecidableEq

/-- The per-record dictionary built by `_get_unprocessed_scores`
(lines 147-188) and consumed by `_match_interventions_for_patient`. -/
structure ScoreData where
  record_id : String
  patient_id : String
  report_id : String
  survey_id : String
  scores : List (String × ℚ)
  primary_sources : List (String × String)
  confidence : List (String × String)
  deriving DecidableEq

/-- Model of Python `dict.get(key, default)` on an association list. -/
def lookupD {α : Type} (l : List (String × α)) (k : String) (d : α) : α :=
  match l.find? (fun p => p.1 == k) with
  | some p => p.2
  | none => d

/-- The dictionary-construction step of `_get_unprocessed_scores`
(lines 147-188), applied to one score record.  NOTE: the source builds
the `confidence` dictionary for only 8 of the 11 domains — the
`parabens`, `mycotoxins_food` and `mycotoxins_water_damage` confidence
fields of the record are never read (lines 178-187). -/
def build_score_data (record_id : String) (fields : ScoreRecordFields) : ScoreData where
  record_id := record_id
  patient_id := fields.patient_id
  report_id := fields.report_id
  survey_id := fields.survey_id
  scores :=
    [("arsenic", fields.arsenic_source_score),
     ("mercury", fields.mercury_source_score),
     ("lead", fields.lead_source_score),
     ("cadmium", fields.cadmium_source_score),
     ("pfas", fields.pfas_source_score),
     ("phthalates", fields.phthalates_source_score),
     ("pesticides", fields.pesticides_source_score),
     ("vocs", fields.vocs_source_score),
     ("parabens", fields.parabens_source_score),
     ("mycotoxins_food", fields.mycotoxins_food_score),
     ("mycotoxins_water_damage", fields.mycotoxins_water_damage_score)]
  primary_sources :=
    [("arsenic", fields.arsenic_primary_source),
     ("mercury", fields.mercury_primary_source),
     ("lead", fields.lead_primary_source),
     ("cadmium", fields.cadmium_primary_source),
     ("pfas", fields.pfas_primary_source),
     ("phthalates", fields.phthalates_primary_source),
     ("pesticides", fields.pesticides_primary_source),
     ("vocs", fields.vocs_primary_source),
     ("parabens", fields.parabens_primary_source),
     ("mycotoxins_food", fields.mycotoxins_food_primary_source),
     ("mycotoxins_water_damage", fields.mycotoxins_water_damage_primary_source)]
  confidence :=
    [("arsenic", fields.arsenic_confidence),
     ("mercury", fields.mercury_confidence),
     ("lead", fields.lead_confidence),
     ("cadmium", fields.cadmium_confidence),
     ("pfas", fields.pfas_confidence),
     ("phthalates", fields.phthalates_confidence),
     ("pesticides", fields.pesticides_confidence),
     ("vocs", fields.vocs_confidence)]

/-! ### The matching engine (`_match_interventions_for_patient`, lines 192-279) -/

/-- The `domain_map` dictionary (lines 204-216), in its Python insertion
(= iteration) order. -/
def domain_map : List (String × String) :=
  [("arsenic", "Arsenic"),
   ("mercury", "Mercury"),
   ("lead", "Lead"),
   ("cadmium", "Cadmium"),
   ("pfas", "PFAS"),
   ("phthalates", "Phthalates"),
   ("pesticides", "Pesticides"),
   ("vocs", "VOCs"),
   ("parabens", "Parabens"),
   ("mycotoxins_food", "Mycotoxins-Food"),
   ("mycotoxins_water_damage", "Mycotoxins-WaterDamage")]

/-- The catalog-entry domain filter (line 242):
`intervention['domain'] in [domain_name, domain_name.replace('-', ' ')]`. -/
def domainMatches (entryDomain domainName : String) : Bool :=
  entryDomain == domainName || entryDomain == replDash domainName

/-- The relevance calculation (lines 250-258), on the already-lowercased
source category and primary source. -/
def relevanceScore (source_category primary_source : String) : Int :=
  if source_category != "" && (pySplit source_category).any (fun kw => strContains primary_source kw)
  then 100
  else if source_category == "" then 50
  else 0

/-- One `(intervention, priority, reason)` tuple (line 275). -/
structure MatchCandidate where
  intervention : Intervention
  priority : ℚ
  reason : String
  deriving DecidableEq

/-- The reason-string construction (lines 269-273); `source_category` is
the already-lowercased category, `conf` the already-lowercased
confidence. -/
def mkReason (domain_name : String) (score : ℚ) (conf source_category : String) : String :=
  (replDash domain_name ++ " score: " ++ fmt1 score ++ "/10")
    ++ (if conf != "low" then " (" ++ conf ++ " confidence)" else "")
    ++ (if source_category != "" then " - Source: " ++ pyTitle (replUnderscore source_category) else "")

/-- The per-catalog-entry body of the inner loop (lines 241-275): returns
the candidate appended to `matches`, or `none` when the entry is skipped
by a `continue`. -/
def candidateFor (domain_name : String) (score : ℚ) (primary_source conf : String)
    (base_priority : Int) (iv : Intervention) : Option MatchCandidate :=
  if domainMatches iv.domain domain_name then
    let source_category := pyLower iv.source_category
    let relevance_score := relevanceScore source_category primary_source
    if relevance_score == 0 then none
    else
      let final_priority : ℚ :=
        (base_priority : ℚ) + ((iv.priority_rank : ℚ) - 1) - ((relevance_score : ℚ) / 50)
      some { intervention := iv
             priority := final_priority
             reason := mkReason domain_name score conf source_category }
  else none

/-- All candidates one domain contributes, in catalog order (the inner
`for intervention in self.interventions` loop, lines 241-275). -/
def domainCandidates (interventions : List Intervention) (domain_name : String) (score : ℚ)
    (primary_source conf : String) (base_priority : Int) : List MatchCandidate :=
  interventions.filterMap (candidateFor domain_name score primary_source conf base_priority)

/-- The full unsorted `matches` list (lines 198-275): iterate the 11
domains in `domain_map` order, gate on the moderate threshold, compute the
base priority from score and confidence, and collect each domain's
candidates. -/
def collectMatches (interventions : List Intervention) (sd : ScoreData) : List MatchCandidate :=
  domain_map.flatMap (fun p =>
    let domain_key := p.1
    let domain_name := p.2
    let score := lookupD sd.scores domain_key 0
    if score < MODERATE_SCORE_THRESHOLD then []
    else
      let primary_source := pyLower (lookupD sd.primary_sources domain_key "")
      let conf := pyLower (lookupD sd.confidence domain_key "low")
      let base_priority : Int :=
        if HIGH_SCORE_THRESHOLD ≤ score then
          if conf == "high" then 1
          else if conf == "moderate" then 2
          else 3
        else 3
      domainCandidates interventions domain_name score primary_source conf base_priority)

/-- The sort key comparison used by `matches.sort(key=lambda x: x[1])`
(line 278). -/
def priorityLE (a b : MatchCandidate) : Prop :=
  a.priority ≤ b.priority

instance : DecidableRel priorityLE :=
  fun a b => inferInstanceAs (Decidable (a.priority ≤ b.priority))

instance : IsTotal MatchCandidate priorityLE :=
  ⟨fun a b => le_total a.priority b.priority⟩

instance : IsTrans MatchCandidate priorityLE :=
  ⟨fun _ _ _ hab hbc => le_trans hab hbc⟩

/-- Function `_match_interventions_for_patient` (lines 192-279), parameterized —
like the Python module scope in which it runs — by the module-level
`SOURCE_CATEGORY_KEYWORDS` table.  Exactly as in the source (which never
mentions the table inside the function body), the parameter is unused:
the body sorts the collected matches stably by ascending priority and
truncates to the top 10. -/
def match_interventions_with_keywords (source_category_keywords : List (String × List String))
    (interventions : List Intervention) (sd : ScoreData) : List MatchCandidate :=
  ((collectMatches interventions sd).insertionSort priorityLE).take MAX_INTERVENTIONS_PER_PATIENT

/-- Function `_match_interventions_for_patient` with the table bound to the
module-level `SOURCE_CATEGORY_KEYWORDS` constant, as in the source. -/
def match_interventions_for_patient : List Intervention → ScoreData → List MatchCandidate :=
  match_interventions_with_keywords SOURCE_CATEGORY_KEYWORDS

/-! ### Assignment materialization (`_create_intervention_assignments`, lines 281-316) -/

/-- One `assignment_data` record (lines 298-307). -/
structure InterventionAssignment where
  patient_id : String
  report_id : String
  intervention_id : String
  assigned_date : String
  priority : Int
  status : String
  assigned_by : String
  practitioner_notes : String
  deriving DecidableEq

/-- A default record, used only as the out-of-range fallback of
`List.getD` in theorem statements. -/
def defaultAssignment : InterventionAssignment :=
  { patient_id := "", report_id := "", intervention_id := "", assigned_date := ""
    priority := 0, status := "", assigned_by := "", practitioner_notes := "" }

/-- The loop body of `_create_intervention_assignments` (lines 289-307),
with `idx` the 1-based `enumerate(matched_interventions, 1)` counter.
The priority tier depends only on `idx`. -/
def createAssignmentsFrom (patient_id report_id assigned_date : String) :
    Nat → List MatchCandidate → List InterventionAssignment
  | _, [] => []
  | idx, c :: rest =>
    let priority_tier : Int := if idx ≤ 3 then 1 else if idx ≤ 6 then 2 else 3
    { patient_id := patient_id
      report_id := report_id
      intervention_id := c.intervention.record_id
      assigned_date := assigned_date
      priority := priority_tier
      status := "Not Started"
      assigned_by := "Automated"
      practitioner_notes := c.reason }
      :: createAssignmentsFrom patient_id report_id assigned_date (idx + 1) rest

/-- Function `_create_intervention_assignments` (lines 281-316): the sequence of
assignment records written to the sink, in creation order (the returned
`created_count` of the source is this list's length when every write
succeeds). -/
def create_intervention_assignments (patient_id report_id assigned_date : String)
    (matched_interventions : List MatchCandidate) : List InterventionAssignment :=
  createAssignmentsFrom patient_id report_id assigned_date 1 matched_interventions

/-! ### Concrete data used by witnesses and scenario theorems -/

/-- A score record with every score 0, every primary source empty, and
every confidence at its `'low'` default. -/
def blankRecord : ScoreRecordFields where
  patient_id := "P1"
  report_id := "R1"
  survey_id := "S1"
  arsenic_source_score := 0
  mercury_source_score := 0
  lead_source_score := 0
  cadmium_source_score := 0
  pfas_source_score := 0
  phthalates_source_score := 0
  pesticides_source_score := 0
  vocs_source_score := 0
  parabens_source_score := 0
  mycotoxins_food_score := 0
  mycotoxins_water_damage_score := 0
  arsenic_primary_source := ""
  mercury_primary_source := ""
  lead_primary_source := ""
  cadmium_primary_source := ""
  pfas_primary_source := ""
  phthalates_primary_source := ""
  pesticides_primary_source := ""
  vocs_primary_source := ""
  parabens_primary_source := ""
  mycotoxins_food_primary_source := ""
  mycotoxins_water_damage_primary_source := ""
  arsenic_confidence := "low"
  mercury_confidence := "low"
  lead_confidence := "low"
  cadmium_confidence := "low"
  pfas_confidence := "low"
  phthalates_confidence := "low"
  pesticides_confidence := "low"
  vocs_confidence := "low"
  parabens_confidence := "low"
  mycotoxins_food_confidence := "low"
  mycotoxins_water_damage_confidence := "low"

/-- The §8 scenario catalog entry:
`{domain: Arsenic, source_category: "rice", priority_rank: 2}`. -/
def ivRice : Intervention where
  record_id := "rec_rice"
  intervention_id := "IV-001"
  domain := "Arsenic"
  source_category := "rice"
  intervention_name := "Choose low-arsenic rice"
  priority_rank := 2
  difficulty_level := "Moderate"
  expected_reduction_percent := 0
  estimated_cost := "$51-200"

/-- Like `ivRice` but with `priority_rank = 1` (the most-urgent base case
of claim C6). -/
def ivRice1 : Intervention :=
  { ivRice with record_id := "rec_rice1", intervention_id := "IV-002", priority_rank := 1 }

/-- A generic (no source category) Lead intervention. -/
def ivLeadGeneric : Intervention where
  record_id := "rec_lead"
  intervention_id := "IV-003"
  domain := "Lead"
  source_category := ""
  intervention_name := "Test tap water for lead"
  priority_rank := 1
  difficulty_level := "Easy"
  expected_reduction_percent := 0
  estimated_cost := "$51-200"

/-- A generic (no source category) Mycotoxins-Food intervention. -/
def ivMycoGeneric : Intervention where
  record_id := "rec_myco"
  intervention_id := "IV-004"
  domain := "Mycotoxins-Food"
  source_category := ""
  intervention_name := "Rotate pantry staples"
  priority_rank := 1
  difficulty_level := "Easy"
  expected_reduction_percent := 0
  estimated_cost := "$51-200"

/-- The §8 scenario record: arsenic score 8.0, confidence high, primary
source `"I eat rice daily"`. -/
def rawArsenic : ScoreRecordFields :=
  { blankRecord with
      arsenic_source_score := 8
      arsenic_primary_source := "I eat rice daily"
      arsenic_confidence := "high" }

/-- Lead score 8.0 with default-low confidence, everything else blank. -/
def rawLead : ScoreRecordFields :=
  { blankRecord with lead_source_score := 8 }

/-- Mycotoxins-Food score 8.0 with confidence explicitly `"high"` on the
record — the failing input of claim C3. -/
def rawMyco : ScoreRecordFields :=
  { blankRecord with
      mycotoxins_food_score := 8
      mycotoxins_food_confidence := "high" }

/-- The candidate the §8 scenario is expected to produce. -/
def candRice0 : MatchCandidate where
  intervention := ivRice
  priority := 0
  reason := "Arsenic score: 8.0/10 (high confidence) - Source: Rice"

/-- The candidate `ivRice1` produces on the §8 record: final priority
`1 + 0 - 2 = -1`. -/
def candRice1 : MatchCandidate where
  intervention := ivRice1
  priority := -1
  reason := "Arsenic score: 8.0/10 (high confidence) - Source: Rice"

/-- The candidate `ivLeadGeneric` produces on `rawLead`. -/
def candLead : MatchCandidate where
  intervention := ivLeadGeneric
  priority := 2
  reason := "Lead score: 8.0/10"

/-! ### Helper lemmas -/

/-- Unpacking membership in a domain's candidate list: the candidate's
intervention comes from the catalog, passed the domain filter, has
nonzero relevance, and carries the blended priority and the generated
reason string. -/
lemma mem_domainCandidates {interventions : List Intervention} {domain_name : String}
    {score : ℚ} {primary_source conf : String} {base_priority : Int} {cand : MatchCandidate}
    (h : cand ∈ domainCandidates interventions domain_name score primary_source conf base_priority) :
    cand.intervention ∈ interventions
    ∧ domainMatches cand.intervention.domain domain_name = true
    ∧ relevanceScore (pyLower cand.intervention.source_category) primary_source ≠ 0
    ∧ cand.priority = (base_priority : ℚ) + ((cand.intervention.priority_rank : ℚ) - 1)
        - ((relevanceScore (pyLower cand.intervention.source_category) primary_source : ℚ) / 50)
    ∧ cand.reason = mkReason domain_name score conf (pyLower cand.intervention.source_category) := by
  obtain ⟨iv, hiv, hf⟩ := List.mem_filterMap.mp h
  unfold candidateFor at hf
  split at hf
  · dsimp only at hf
    split at hf
    · exact absurd hf (by simp)
    · rename_i hd hz
      obtain rfl := Option.some.inj hf
      refine ⟨hiv, hd, ?_, rfl, rfl⟩
      simpa using hz
  · exact absurd hf (by simp)

/-- Unpacking membership in the collected (pre-sort) match list: the
candidate arises from some domain of `domain_map` whose score passed the
moderate threshold. -/
lemma mem_collectMatches {interventions : List Intervention} {sd : ScoreData}
    {cand : MatchCandidate} (h : cand ∈ collectMatches interventions sd) :
    ∃ p ∈ domain_map,
      ¬ lookupD sd.scores p.1 0 < MODERATE_SCORE_THRESHOLD
      ∧ cand ∈ domainCandidates interventions p.2 (lookupD sd.scores p.1 0)
          (pyLower (lookupD sd.primary_sources p.1 ""))
          (pyLower (lookupD sd.confidence p.1 "low"))
          (if HIGH_SCORE_THRESHOLD ≤ lookupD sd.scores p.1 0 then
            if pyLower (lookupD sd.confidence p.1 "low") == "high" then 1
            else if pyLower (lookupD sd.confidence p.1 "low") == "moderate" then 2
            else 3
          else 3) := by
  obtain ⟨p, hp, hc⟩ := List.mem_flatMap.mp h
  refine ⟨p, hp, ?_⟩
  dsimp only at hc
  split at hc
  · exact absurd hc (List.not_mem_nil cand)
  · rename_i hs
    exact ⟨hs, hc⟩

/-- Every candidate in the matcher's output is in the collected list. -/
lemma mem_of_mem_matcher {interventions : List Intervention} {sd : ScoreData}
    {cand : MatchCandidate} (h : cand ∈ match_interventions_for_patient interventions sd) :
    cand ∈ collectMatches interventions sd := by
  have h1 : cand ∈ (collectMatches interventions sd).insertionSort priorityLE :=
    List.mem_of_mem_take h
  exact (List.mem_insertionSort priorityLE).mp h1

/-- The 11 domains of `domain_map` have pairwise distinct names, even up
to the hyphen/space normalization. -/
lemma domainMap_pairwise : ∀ p ∈ domain_map, ∀ q ∈ domain_map, p.1 ≠ q.1 →
    p.2 ≠ q.2 ∧ p.2 ≠ replDash q.2 ∧ replDash p.2 ≠ q.2 ∧ replDash p.2 ≠ replDash q.2 := by
  decide

/-- Lemma: `createAssignmentsFrom` produces one assignment per candidate. -/
lemma length_createAssignmentsFrom (pid rid date : String) :
    ∀ (idx : Nat) (l : List MatchCandidate),
      (createAssignmentsFrom pid rid date idx l).length = l.length
  | _, [] => rfl
  | idx, _ :: rest => by
    simp [createAssignmentsFrom, length_createAssignmentsFrom pid rid date (idx + 1) rest]

/-! ### Claim theorems -/

/-- Claim C1: for every interventions catalog and every exposure score
record, the matcher returns at most 10 (`MAX_INTERVENTIONS_PER_PATIENT`)
candidates, and hence at most 10 assignments are materialized per score
record. -/
theorem matcher_returns_at_most_ten (interventions : List Intervention) (sd : ScoreData)
    (patient_id report_id assigned_date : String) :
    (match_interventions_for_patient interventions sd).length ≤ MAX_INTERVENTIONS_PER_PATIENT
    ∧ (create_intervention_assignments patient_id report_id assigned_date
        (match_interventions_for_patient interventions sd)).length
          ≤ MAX_INTERVENTIONS_PER_PATIENT := by
  constructor
  · exact List.length_take_le _ _
  · rw [create_intervention_assignments, length_createAssignmentsFrom]
    exact List.length_take_le _ _

/-- Claim C2: if a domain's score is strictly below
`MODERATE_SCORE_THRESHOLD` (5.0), no candidate in the matcher's output
originates from that domain (no output intervention carries that domain's
name, in either its hyphenated or space-separated spelling). -/
theorem below_moderate_threshold_no_candidates (interventions : List Intervention)
    (sd : ScoreData) (domain_key domain_name : String)
    (hmem : (domain_key, domain_name) ∈ domain_map)
    (hscore : lookupD sd.scores domain_key 0 < MODERATE_SCORE_THRESHOLD) :
    ∀ cand ∈ match_interventions_for_patient interventions sd,
      cand.intervention.domain ≠ domain_name
      ∧ cand.intervention.domain ≠ replDash domain_name := by
  intro cand hcand
  obtain ⟨p, hp, hs, hc⟩ := mem_collectMatches (mem_of_mem_matcher hcand)
  obtain ⟨-, hd, -, -, -⟩ := mem_domainCandidates hc
  have hkey : p.1 ≠ domain_key := by
    intro he
    rw [he] at hs
    exact hs hscore
  obtain ⟨h1, h2, h3, h4⟩ := domainMap_pairwise p hp (domain_key, domain_name) hmem hkey
  rcases Bool.or_eq_true_iff.mp hd with he | he
  · have he' := eq_of_beq he
    constructor
    · rw [he']; exact h1
    · rw [he']; exact h2
  · have he' := eq_of_beq he
    constructor
    · rw [he']; exact h3
    · rw [he']; exact h4

/-- Witness for C2: on a record whose arsenic score is 0 (< 5.0) and lead
score is 8.0, the single produced candidate is not an Arsenic one. -/
theorem below_moderate_threshold_no_candidates_witness :
    (("arsenic", "Arsenic") ∈ domain_map)
    ∧ lookupD (build_score_data "rec002" rawLead).scores "arsenic" 0 < MODERATE_SCORE_THRESHOLD
    ∧ candLead ∈ match_interventions_for_patient [ivLeadGeneric] (build_score_data "rec002" rawLead)
    ∧ (candLead.intervention.domain ≠ "Arsenic"
        ∧ candLead.intervention.domain ≠ replDash "Arsenic") :=
  ⟨by decide, by with_unfolding_all decide, by with_unfolding_all decide,
   below_moderate_threshold_no_candidates [ivLeadGeneric] (build_score_data "rec002" rawLead)
     "arsenic" "Arsenic" (by decide) (by with_unfolding_all decide)
     candLead (by with_unfolding_all decide)⟩

/-- The dash-to-space substitution is idempotent on characters. -/
lemma dashToSpace_idem (c : Char) : dashToSpace (dashToSpace c) = dashToSpace c := by
  by_cases h : c = '-' <;> simp [dashToSpace, h]

/-- The hyphen/space normalization `replace('-', ' ')` is idempotent. -/
lemma replDash_idem (s : String) : replDash (replDash s) = replDash s := by
  apply congrArg String.mk
  show (s.data.map dashToSpace).map dashToSpace = s.data.map dashToSpace
  rw [List.map_map]
  exact List.map_congr_left (fun c _ => dashToSpace_idem c)

/-- Claim C4: the hyphenated and the space-separated spelling of a domain
name pass the catalog filter for exactly the same patient domains, and a
catalog entry whose domain differs from the patient's domain under the
hyphens-to-spaces normalization is excluded. -/
theorem domain_normalization_equivalence :
    (∀ p ∈ domain_map, ∀ q ∈ domain_map,
       domainMatches p.2 q.2 = domainMatches (replDash p.2) q.2)
    ∧ ∀ (entryDomain : String), ∀ q ∈ domain_map,
        replDash entryDomain ≠ replDash q.2 → domainMatches entryDomain q.2 = false := by
  constructor
  · decide
  · intro e q _ hne
    cases he : domainMatches e q.2
    · rfl
    · exfalso
      rcases Bool.or_eq_true_iff.mp he with h | h
      · exact hne (by rw [eq_of_beq h])
      · exact hne (by rw [eq_of_beq h, replDash_idem])

/-- Witness for C4: the two spellings of Mycotoxins-Food filter alike,
and a Lead entry is excluded from the Arsenic domain. -/
theorem domain_normalization_equivalence_witness :
    (("mycotoxins_food", "Mycotoxins-Food") ∈ domain_map
      ∧ domainMatches "Mycotoxins-Food" "Mycotoxins-Food"
          = domainMatches (replDash "Mycotoxins-Food") "Mycotoxins-Food")
    ∧ (replDash "Lead" ≠ replDash "Arsenic" ∧ domainMatches "Lead" "Arsenic" = false) :=
  ⟨⟨by decide,
    domain_normalization_equivalence.1 ("mycotoxins_food", "Mycotoxins-Food") (by decide)
      ("mycotoxins_food", "Mycotoxins-Food") (by decide)⟩,
   ⟨by decide,
    domain_normalization_equivalence.2 "Lead" ("arsenic", "Arsenic") (by decide) (by decide)⟩⟩

/-- The priority tier written by `createAssignmentsFrom` depends only on
the 1-based position `idx + i`. -/
lemma createAssignmentsFrom_getD (pid rid date : String) :
    ∀ (l : List MatchCandidate) (idx i : Nat), i < l.length →
      ((createAssignmentsFrom pid rid date idx l).getD i defaultAssignment).priority
        = if idx + i ≤ 3 then 1 else if idx + i ≤ 6 then 2 else 3
  | [], _, i, h => absurd h (by simp)
  | c :: rest, idx, 0, _ => by simp [createAssignmentsFrom]
  | c :: rest, idx, i + 1, h => by
    have ih := createAssignmentsFrom_getD pid rid date rest (idx + 1) i (by simpa using h)
    simpa [createAssignmentsFrom, Nat.add_assoc, Nat.add_comm 1 i] using ih

/-- Claim C8: when materializing assignments, the priority tier is a
function of the 1-based rank position alone — positions 1-3 get tier 1,
positions 4-6 tier 2, and later positions tier 3 — for every candidate
list, independently of the candidates' numeric priorities. -/
theorem tier_by_rank_position (pid rid date : String) (matched : List MatchCandidate) (i : Nat)
    (h : i < (create_intervention_assignments pid rid date matched).length) :
    ((create_intervention_assignments pid rid date matched).getD i defaultAssignment).priority
      = if i + 1 ≤ 3 then 1 else if i + 1 ≤ 6 then 2 else 3 := by
  rw [create_intervention_assignments] at h ⊢
  rw [length_createAssignmentsFrom] at h
  have := createAssignmentsFrom_getD pid rid date matched 1 i h
  simpa [Nat.add_comm 1 i] using this

/-- Witness for C8: the first materialized assignment gets tier 1. -/
theorem tier_by_rank_position_witness :
    0 < (create_intervention_assignments "P1" "R1" "2026-01-01" [candLead]).length
    ∧ ((create_intervention_assignments "P1" "R1" "2026-01-01" [candLead]).getD 0
          defaultAssignment).priority
        = if 0 + 1 ≤ 3 then 1 else if 0 + 1 ≤ 6 then 2 else 3 :=
  ⟨by decide, tier_by_rank_position "P1" "R1" "2026-01-01" [candLead] 0 (by decide)⟩

/-- Claim C10: the matcher's output does not depend on the contents of the
module-level `SOURCE_CATEGORY_KEYWORDS` table — running the module with
any two table contents yields identical candidate lists — because the
matching code reads only each catalog entry's own `source_category`
keywords. -/
theorem matcher_independent_of_keyword_table (t1 t2 : List (String × List String))
    (interventions : List Intervention) (sd : ScoreData) :
    match_interventions_with_keywords t1 interventions sd
      = match_interventions_with_keywords t2 interventions sd
    ∧ match_interventions_for_patient interventions sd
      = match_interventions_with_keywords SOURCE_CATEGORY_KEYWORDS interventions sd :=
  ⟨rfl, rfl⟩

/-- Inserting a candidate whose priority differs from `q` leaves the
priority-`q` subsequence unchanged. -/
lemma filter_orderedInsert_of_ne (q : ℚ) (a : MatchCandidate) (l : List MatchCandidate)
    (ha : a.priority ≠ q) :
    (l.orderedInsert priorityLE a).filter (fun c => c.priority == q)
      = l.filter (fun c => c.priority == q) := by
  induction l with
  | nil => simp [List.orderedInsert, ha]
  | cons b t ih =>
    rw [List.orderedInsert]
    split
    · simp [List.filter_cons, ha]
    · simp only [List.filter_cons, ih]

/-- Inserting a candidate of priority `q` puts it in front of the
priority-`q` subsequence (it walks past strictly smaller priorities
only). -/
lemma filter_orderedInsert_of_eq (q : ℚ) (a : MatchCandidate) (l : List MatchCandidate)
    (ha : a.priority = q) :
    (l.orderedInsert priorityLE a).filter (fun c => c.priority == q)
      = a :: l.filter (fun c => c.priority == q) := by
  induction l with
  | nil => simp [List.orderedInsert, ha]
  | cons b t ih =>
    rw [List.orderedInsert]
    split
    · simp [List.filter_cons, ha]
    · rename_i hr
      have hb : b.priority ≠ q := by
        intro hbq
        exact hr (by simp [priorityLE, ha, hbq])
      simp [List.filter_cons, hb, ih]

/-- Stability of the sort: for every priority value `q`, the subsequence
of priority-`q` candidates is the same before and after sorting. -/
lemma filter_insertionSort (q : ℚ) (l : List MatchCandidate) :
    (l.insertionSort priorityLE).filter (fun c => c.priority == q)
      = l.filter (fun c => c.priority == q) := by
  induction l with
  | nil => rfl
  | cons a t ih =>
    rw [List.insertionSort]
    by_cases ha : a.priority = q
    · rw [filter_orderedInsert_of_eq q a _ ha, ih, List.filter_cons]
      simp [ha]
    · rw [filter_orderedInsert_of_ne q a _ ha, ih, List.filter_cons]
      simp [ha]

/-- Claim C7: the matcher's output is sorted by ascending final priority;
it is the 10-element truncation of a stable sort of the collected
candidate list (which is built in the fixed `domain_map` iteration order,
and in catalog order within a domain): for every priority value, the
candidates carrying that priority appear in the sorted list in exactly
their insertion order. -/
theorem ranking_sorted_and_stable (interventions : List Intervention) (sd : ScoreData) :
    List.Sorted priorityLE (match_interventions_for_patient interventions sd)
    ∧ match_interventions_for_patient interventions sd
        = ((collectMatches interventions sd).insertionSort priorityLE).take
            MAX_INTERVENTIONS_PER_PATIENT
    ∧ ∀ q : ℚ,
        ((collectMatches interventions sd).insertionSort priorityLE).filter
            (fun c => c.priority == q)
          = (collectMatches interventions sd).filter (fun c => c.priority == q) :=
  ⟨List.Pairwise.sublist (List.take_sublist _ _) (List.sorted_insertionSort priorityLE _),
   rfl,
   fun q => filter_insertionSort q _⟩

/-- Claim C5: relevance is exactly 100 when the entry's (lowercased)
source category is non-empty and one of its whitespace-separated keywords
occurs as a substring of the (lowercased) primary-source text, exactly 50
when the source category is empty, and exactly 0 otherwise; and every
zero-relevance entry is excluded from the produced candidates. -/
theorem relevance_cases_and_zero_excluded :
    (∀ source_category primary_source : String,
       (relevanceScore source_category primary_source = 100 ↔
          source_category ≠ ""
          ∧ ∃ kw ∈ pySplit source_category, strContains primary_source kw = true)
       ∧ (relevanceScore source_category primary_source = 50 ↔ source_category = "")
       ∧ (relevanceScore source_category primary_source = 0 ↔
          source_category ≠ ""
          ∧ ∀ kw ∈ pySplit source_category, strContains primary_source kw = false))
    ∧ (∀ (interventions : List Intervention) (domain_name : String) (score : ℚ)
        (primary_source conf : String) (base_priority : Int) (iv : Intervention),
        relevanceScore (pyLower iv.source_category) primary_source = 0 →
        ∀ cand ∈ domainCandidates interventions domain_name score primary_source conf base_priority,
          cand.intervention ≠ iv) := by
  constructor
  · intro sc ps
    unfold relevanceScore
    split_ifs with h1 h2
    · rw [Bool.and_eq_true, bne_iff_ne, List.any_eq_true] at h1
      refine ⟨⟨fun _ => ⟨h1.1, h1.2⟩, fun _ => rfl⟩, ?_, ?_⟩
      · exact ⟨fun h => absurd h (by decide), fun h => absurd h h1.1⟩
      · refine ⟨fun h => absurd h (by decide), ?_⟩
        rintro ⟨-, hall⟩
        obtain ⟨kw, hkw, hc⟩ := h1.2
        rw [hall kw hkw] at hc
        exact (Bool.false_ne_true hc).elim
    · rw [beq_iff_eq] at h2
      refine ⟨?_, ⟨fun _ => h2, fun _ => rfl⟩, ?_⟩
      · exact ⟨fun h => absurd h (by decide), fun h => absurd h2 h.1⟩
      · exact ⟨fun h => absurd h (by decide), fun h => absurd h2 h.1⟩
    · rw [Bool.and_eq_true, bne_iff_ne, List.any_eq_true] at h1
      rw [beq_iff_eq] at h2
      have hall : ∀ kw ∈ pySplit sc, strContains ps kw = false := by
        intro kw hkw
        cases hc : strContains ps kw
        · rfl
        · exact absurd ⟨h2, kw, hkw, hc⟩ h1
      refine ⟨?_, ⟨fun h => absurd h (by decide), fun h => absurd h h2⟩,
        ⟨fun _ => ⟨h2, hall⟩, fun _ => rfl⟩⟩
      refine ⟨fun h => absurd h (by decide), ?_⟩
      rintro ⟨-, kw, hkw, hc⟩
      rw [hall kw hkw] at hc
      exact (Bool.false_ne_true hc).elim
  · intro _ _ _ _ _ _ iv hzero cand hcand he
    have hne := (mem_domainCandidates hcand).2.2.1
    rw [he, hzero] at hne
    exact hne rfl

/-- Witness for C5: on the §8 scenario strings, relevance is 100, via the
keyword characterization. -/
theorem relevance_cases_and_zero_excluded_witness :
    relevanceScore "rice" "i eat rice daily" = 100
    ∧ ("rice" ≠ (""  : String)
        ∧ ∃ kw ∈ pySplit "rice", strContains "i eat rice daily" kw = true) :=
  ⟨(relevance_cases_and_zero_excluded.1 "rice" "i eat rice daily").1.mpr
     ⟨by decide, "rice", by decide, by decide⟩,
   ⟨by decide, "rice", by decide, by decide⟩⟩

/-- Claim C6: every produced candidate's final priority is exactly
`base_priority + (priority_rank - 1) - relevance / 50` in exact rational
arithmetic, with no floor applied; in particular a score ≥ 7.0 with high
confidence, `priority_rank = 1` and a specific keyword match yields the
negative final priority `1 + 0 - 2 = -1`. -/
theorem final_priority_formula :
    (∀ (interventions : List Intervention) (domain_name : String) (score : ℚ)
        (primary_source conf : String) (base_priority : Int) (cand : MatchCandidate),
        cand ∈ domainCandidates interventions domain_name score primary_source conf base_priority →
        cand.priority = (base_priority : ℚ) + ((cand.intervention.priority_rank : ℚ) - 1)
          - ((relevanceScore (pyLower cand.intervention.source_category) primary_source : ℚ) / 50))
    ∧ (match_interventions_for_patient [ivRice1] (build_score_data "rec001" rawArsenic)).map
        (fun c => c.priority) = [-1] := by
  constructor
  · intro _ _ _ _ _ _ cand h
    exact (mem_domainCandidates h).2.2.2.1
  · with_unfolding_all decide

/-- Witness for C6: the formula instantiated on the concrete `-1`
candidate of the §8-style scenario. -/
theorem final_priority_formula_witness :
    candRice1 ∈ domainCandidates [ivRice1] "Arsenic" 8 "i eat rice daily" "high" 1
    ∧ candRice1.priority = ((1 : Int) : ℚ) + ((candRice1.intervention.priority_rank : ℚ) - 1)
        - ((relevanceScore (pyLower candRice1.intervention.source_category)
              "i eat rice daily" : ℚ) / 50) :=
  ⟨by with_unfolding_all decide,
   final_priority_formula.1 [ivRice1] "Arsenic" 8 "i eat rice daily" "high" 1 candRice1
     (by with_unfolding_all decide)⟩

/-- Claim C9: every produced candidate's justification string is the
domain name with hyphens replaced by spaces, `" score: "`, the score to
one decimal place, `"/10"`, then `" (<confidence> confidence)"` iff the
confidence is not low, then `" - Source: "` plus the source category with
underscores replaced by spaces and title-cased iff the source category is
non-empty; and the §8 scenario yields exactly one candidate with final
priority 0 and justification
`"Arsenic score: 8.0/10 (high confidence) - Source: Rice"`. -/
theorem justification_format :
    (∀ (interventions : List Intervention) (domain_name : String) (score : ℚ)
        (primary_source conf : String) (base_priority : Int) (cand : MatchCandidate),
        cand ∈ domainCandidates interventions domain_name score primary_source conf base_priority →
        cand.reason
          = (replDash domain_name ++ " score: " ++ fmt1 score ++ "/10")
            ++ (if conf != "low" then " (" ++ conf ++ " confidence)" else "")
            ++ (if pyLower cand.intervention.source_category != "" then
                  " - Source: "
                    ++ pyTitle (replUnderscore (pyLower cand.intervention.source_category))
                else ""))
    ∧ match_interventions_for_patient [ivRice] (build_score_data "rec001" rawArsenic)
        = [candRice0] := by
  constructor
  · intro _ _ _ _ _ _ cand h
    exact (mem_domainCandidates h).2.2.2.2
  · with_unfolding_all decide

/-- Witness for C9: the format instantiated on the §8 scenario
candidate. -/
theorem justification_format_witness :
    candRice0 ∈ domainCandidates [ivRice] "Arsenic" 8 "i eat rice daily" "high" 1
    ∧ candRice0.reason
        = (replDash "Arsenic" ++ " score: " ++ fmt1 8 ++ "/10")
          ++ (if "high" != "low" then " (" ++ "high" ++ " confidence)" else "")
          ++ (if pyLower candRice0.intervention.source_category != "" then
                " - Source: " ++ pyTitle (replUnderscore (pyLower candRice0.intervention.source_category))
              else "") :=
  ⟨by with_unfolding_all decide,
   justification_format.1 [ivRice] "Arsenic" 8 "i eat rice daily" "high" 1 candRice0
     (by with_unfolding_all decide)⟩

/-- Claim C3 (code evaluation at the failing input): the record has
`mycotoxins_food` score 8.0 (≥ `HIGH_SCORE_THRESHOLD`) and confidence
`"high"`, yet the ingested confidence dictionary drops that domain, so
the matcher falls back to `"low"` and uses base priority 3 — the single
generic candidate gets final priority `3 + 0 - 1 = 2`, not the `0` that
base priority 1 (high confidence, per the claim and spec §3/§6) would
give. -/
theorem mycotoxins_confidence_dropped_eval :
    rawMyco.mycotoxins_food_confidence = "high"
    ∧ HIGH_SCORE_THRESHOLD ≤ lookupD (build_score_data "rec003" rawMyco).scores "mycotoxins_food" 0
    ∧ lookupD (build_score_data "rec003" rawMyco).confidence "mycotoxins_food" "low" = "low"
    ∧ (match_interventions_for_patient [ivMycoGeneric] (build_score_data "rec003" rawMyco)).map
        (fun c => c.priority) = [2] :=
  ⟨rfl, by with_unfolding_all decide, by with_unfolding_all decide, by with_unfolding_all decide⟩
